import Mathlib

/-!
# Verification of the schema-identity hashing core (`pydantic_identity`)

A shallow embedding of `src/pydantic_identity/main.py` (and the small parts of
`utils.py` / `report.py` it relies on), together with theorems settling the
specified properties of the canonicalizer, the hash truncation, the
configuration validator and the identity-keyed cache registries.

Modelling conventions:
* Schema documents are JSON-like trees: maps with string keys in insertion
  order (association lists), lists, strings, integers, booleans, null.
  Numbers are modelled as integers, which covers every value the proofs touch.
* Python exceptions become `Except`-style results.  Because the registries are
  process-global mutable maps that survive an exception, the registry
  operations return the post-call registry state alongside the
  `Except` result.
* Python truthiness matters in three places and is modelled explicitly:
  `registry.get(cls) or registry.setdefault(...)` (empty string is falsy),
  `limit or 1000` (both `None` and `0` are falsy), and
  `if override_val := model_config.get(...)` (the override, when present, is a
  non-empty literal string, hence truthy).
-/

/-- A JSON-like schema document, as produced by the schema provider:
maps (insertion-ordered string keys), lists, and scalars. -/
inductive Json where
  | str (s : String)
  | num (n : Int)
  | bool (b : Bool)
  | null
  | arr (elems : List Json)
  | obj (entries : List (String × Json))

namespace Json

mutual

/-- Boolean equality on documents (structural). -/
def beq : Json → Json → Bool
  | .str a, .str b => a == b
  | .num a, .num b => a == b
  | .bool a, .bool b => a == b
  | .null, .null => true
  | .arr a, .arr b => beqList a b
  | .obj a, .obj b => beqEntries a b
  | _, _ => false

/-- Boolean equality on element lists. -/
def beqList : List Json → List Json → Bool
  | [], [] => true
  | x :: xs, y :: ys => beq x y && beqList xs ys
  | _, _ => false

/-- Boolean equality on entry lists. -/
def beqEntries : List (String × Json) → List (String × Json) → Bool
  | [], [] => true
  | (k, v) :: xs, (l, w) :: ys => k == l && beq v w && beqEntries xs ys
  | _, _ => false

end

/-- Whether a document is a string scalar (`isinstance(v, str)`). -/
def isStr : Json → Bool
  | .str _ => true
  | _ => false

end Json

/-- Code-point comparison of character lists, mirroring how Python compares
strings (lexicographic by Unicode code point). -/
def charListLe : List Char → List Char → Bool
  | [], _ => true
  | _ :: _, [] => false
  | a :: as, b :: bs =>
    if a.val < b.val then true
    else if b.val < a.val then false
    else charListLe as bs

/-- String order `a <= b`, byte-for-byte what Python's `sorted` uses on `str`. -/
def strLe (a b : String) : Bool := charListLe a.data b.data

/-- Insert into a sorted list, keeping equal elements in their original
relative order (stability, as Python's sort guarantees). -/
def insertLe {α : Type} (le : α → α → Bool) (x : α) : List α → List α
  | [] => [x]
  | y :: ys => if le x y then x :: y :: ys else y :: insertLe le x ys

/-- Stable insertion sort, modelling Python's `sorted`. -/
def sortLe {α : Type} (le : α → α → Bool) : List α → List α
  | [] => []
  | x :: xs => insertLe le x (sortLe le xs)

/-- Rank of a document constructor, used to totalize the element order below. -/
def jsonRank : Json → Nat
  | .null => 0
  | .bool _ => 1
  | .num _ => 2
  | .str _ => 3
  | .arr _ => 4
  | .obj _ => 5

/-- Order used by `list(sorted(v))` in the `required` branch.  The branch only
fires when `v[0]` is a string; on all-string lists this is exactly Python's
string order, and it is totalized across kinds so the transform stays total. -/
def jsonLe (a b : Json) : Bool :=
  match a, b with
  | .str x, .str y => strLe x y
  | .num x, .num y => decide (x ≤ y)
  | .bool x, .bool y => !x || y
  | a, b => decide (jsonRank a ≤ jsonRank b)

mutual

/-- Python repr of a document, `repr(x)` for the JSON subset: how a value prints inside a Python
container (strings quoted; escape sequences are not needed for the
documents treated here). -/
def pyRepr : Json → String
  | .str s => "\x27" ++ s ++ "\x27"
  | .num n => toString n
  | .bool b => if b then "True" else "False"
  | .null => "None"
  | .arr xs => "[" ++ pyReprElems xs ++ "]"
  | .obj kvs => "\x7b" ++ pyReprEntries kvs ++ "\x7d"

/-- Comma-joined `repr`s of list elements. -/
def pyReprElems : List Json → String
  | [] => ""
  | [x] => pyRepr x
  | x :: y :: rest => pyRepr x ++ ", " ++ pyReprElems (y :: rest)

/-- Comma-joined quoted-key, repr-value pairs of a dict. -/
def pyReprEntries : List (String × Json) → String
  | [] => ""
  | [(k, v)] => "\x27" ++ k ++ "\x27: " ++ pyRepr v
  | (k, v) :: e :: rest =>
      "\x27" ++ k ++ "\x27: " ++ pyRepr v ++ ", " ++ pyReprEntries (e :: rest)

end

/-- Python str of a document, `str(x)` for the JSON subset: identity on strings, `repr`-style otherwise,
as used by `[str(x) for x in v]` in `_preprocess_schemas`. -/
def pyStr : Json → String
  | .str s => s
  | x => pyRepr x

/-!
## The canonicalizer: `BaseIdentityModel._preprocess_schemas`

The Python function mutates a dict in place, iterating over a snapshot of its
items.  The pure rendering below is faithful to its observable effect:

* On a non-dict argument the function does nothing — in particular a bare list
  is never traversed by a plain recursive call.
* A `description` entry with a string value is deleted when
  `del_descriptions`, and processing of that entry stops (`continue`).
* A non-empty list under `required` (first element a string) is replaced, when
  `sort_required`, by `list(sorted(v))`; the trailing recursive call then runs
  on the *old* list object, a no-op.
* Otherwise a non-empty list under a key other than `default` is, when
  `sort_lists`, element-wise preprocessed in place with
  `(sort_required, del_descriptions := False, sort_lists)` and then replaced
  by `list(sorted([str(x) for x in v]))`; the trailing recursive call again
  runs on the old list object, a no-op.
* Any other value is handled solely by the trailing recursive call, which only
  has an effect when the value is a dict.
-/

mutual

/-- The canonicalizer (`main.py` lines 241-270), as a pure transform. -/
def _preprocess_schemas (sort_required del_descriptions sort_lists : Bool) :
    Json → Json
  | .obj kvs =>
      .obj (preprocessEntries sort_required del_descriptions sort_lists kvs)
  | j => j
termination_by j => (sizeOf j, 0)

/-- One pass of the `for k, v in list(data.items())` loop. -/
def preprocessEntries (sort_required del_descriptions sort_lists : Bool) :
    List (String × Json) → List (String × Json)
  | [] => []
  | (k, v) :: rest =>
    if del_descriptions = true ∧ k = "description" ∧ v.isStr = true then
      preprocessEntries sort_required del_descriptions sort_lists rest
    else
      (k, preprocessValue sort_required del_descriptions sort_lists k v)
        :: preprocessEntries sort_required del_descriptions sort_lists rest
termination_by l => (sizeOf l, 0)

/-- The fate of a single (kept) value at key `k`: the two list-replacement
branches, else the trailing recursive call. -/
def preprocessValue (sort_required del_descriptions sort_lists : Bool)
    (k : String) (v : Json) : Json :=
  match v with
  | .arr (x :: xs) =>
    if sort_required = true ∧ k = "required" ∧ x.isStr = true then
      .arr (sortLe jsonLe (x :: xs))
    else if sort_lists = true ∧ ¬ k = "default" then
      .arr ((sortLe strLe (elemPass sort_required sort_lists (x :: xs))).map
        Json.str)
    else
      .arr (x :: xs)
  | j => _preprocess_schemas sort_required del_descriptions sort_lists j
termination_by (sizeOf v, 1)

/-- The nested element pass of the list-sorting branch:
`str(x)` after `_preprocess_schemas(x, sort_required, False, sort_lists)`. -/
def elemPass (sort_required sort_lists : Bool) : List Json → List String
  | [] => []
  | y :: ys =>
      pyStr (_preprocess_schemas sort_required false sort_lists y)
        :: elemPass sort_required sort_lists ys
termination_by l => (sizeOf l, 0)

end

/-!
## Hash computation, configuration and the config validator
-/

/-- The error kinds the hashing pipeline can raise: the configuration-conflict
`ValueError` of `_validate_no_json_schema_mode_override`, and the
serialization `ValueError` wrapping a `json_dumps` failure. -/
inductive HashError where
  | configConflict
  | serializationFailed (msg : String)
  deriving DecidableEq, Repr

/-- A Pydantic JSON-schema mode (`"serialization"` or `"validation"`). -/
inductive SchemaMode where
  | serialization
  | validation
  deriving DecidableEq, Repr

/-- The per-class configuration: the `ClassVar` settings of
`BaseIdentityModel` (with their source defaults) plus the
`json_schema_mode_override` entry of the Pydantic `model_config` dict.
The override, when present, is one of the two non-empty mode literals, so
`model_config.get(...)` is truthy exactly when the entry is present. -/
structure ModelClassConfig where
  model_schema_hash_track_descriptions : Bool := false
  model_schema_hash_track_field_order : Bool := false
  model_schema_hash_track_type_order : Bool := false
  model_schema_hash_tracked_extra_data : Json := .null
  model_schema_hash_limit_length : Option Int := some 12
  model_schema_hash_tracked_filepath_parts : Nat := 2
  model_schema_hash_track_validation_mode : Bool := true
  json_schema_mode_override : Option SchemaMode := none

/-- Python `x or d` where `x : int | None`: both `None` and `0` are falsy. -/
def pyOrInt : Option Int → Int → Int
  | none, d => d
  | some v, d => if v = 0 then d else v

/-- Python `s[:n]`, including the negative-index convention, expressed on the
character sequence. -/
def pySliceTo (s : String) (n : Int) : String :=
  if n < 0 then ⟨s.data.take (s.length - n.natAbs)⟩ else ⟨s.data.take n.toNat⟩

/-- Truncation step of `model_schema_hash_create_new` (`main.py` line 132):
`id_hash[: cls.model_schema_hash_limit_length or 1000]`. -/
def model_schema_hash_truncate (limit : Option Int) (id_hash : String) : String :=
  pySliceTo id_hash (pyOrInt limit 1000)

/-- The config validator `_validate_no_json_schema_mode_override`
(`main.py` lines 222-239): raises whenever the override entry is present
(present values are truthy literals). -/
def _validate_no_json_schema_mode_override (cfg : ModelClassConfig) :
    Except HashError Unit :=
  match cfg.json_schema_mode_override with
  | some _ => .error .configConflict
  | none => .ok ()

/-- The hash input assembly `model_schema_hash_get_input_data`
(`main.py` lines 146-185).  The schema provider (`cls.model_json_schema`)
and the serializer (`utils.json_dumps`, which may fail on non-serializable
extra data) are the two external collaborators and are passed as functions;
bytes are byte lists.  Alongside the `Except` result the function returns the
list of provider calls it performed, in order, so that "the check runs before
any provider call" is an expressible fact. -/
def model_schema_hash_get_input_data (cfg : ModelClassConfig) (name : String)
    (provider : SchemaMode → Bool → Json)
    (dumps : Json → Bool → Except String (List Nat)) :
    List (SchemaMode × Bool) × Except HashError (List Nat) :=
  match _validate_no_json_schema_mode_override cfg with
  | .error e => ([], .error e)
  | .ok _ =>
    let calls : List (SchemaMode × Bool) :=
      [(.serialization, true), (.serialization, false)]
        ++ (if cfg.model_schema_hash_track_validation_mode then
              [(.validation, true)] else [])
    let json_schemas : Json := .obj
      ([("ser_by_alias", provider .serialization true),
        ("ser_by_name", provider .serialization false)]
        ++ (if cfg.model_schema_hash_track_validation_mode then
              [("val_by_alias", provider .validation true)] else []))
    let processed := _preprocess_schemas
      (!cfg.model_schema_hash_track_field_order)
      (!cfg.model_schema_hash_track_descriptions)
      (!cfg.model_schema_hash_track_type_order)
      json_schemas
    let data : Json := .obj
      [("name", .str name), ("schemas", processed),
       ("extra_data", cfg.model_schema_hash_tracked_extra_data)]
    match dumps data (!cfg.model_schema_hash_track_field_order) with
    | .error msg => (calls, .error (.serializationFailed msg))
    | .ok bs => (calls, .ok bs)

/-- Creation of a fresh hash, `model_schema_hash_create_new`
(`main.py` lines 127-133): hash the input bytes with the pluggable hash
function, then truncate.  `inputData` is the (possibly failing) result of
`model_schema_hash_get_input_data`. -/
def model_schema_hash_create_new (hashFn : List Nat → String)
    (limit : Option Int) (inputData : Except HashError (List Nat)) :
    Except HashError String :=
  match inputData with
  | .error e => .error e
  | .ok d => .ok (model_schema_hash_truncate limit (hashFn d))

/-!
## The identity-keyed cache registries

`_schema_hash_registry` and `_schema_identity_report_registry` are
process-global dicts keyed by class object; a type identity is modelled as a
`Nat`.  Because the dicts survive a raised exception, each operation returns
`(result, final registry state, number of create_new invocations)`;
the invocation count makes "the hash is not recomputed" an expressible fact.
-/

/-- Snapshot of the tracking settings, `SchemaIdentityInfoHashSettings`
(`report.py`). -/
structure SchemaIdentityInfoHashSettings where
  track_descriptions : Bool
  track_field_order : Bool
  track_type_order : Bool
  tracked_filepath_parts : Nat
  track_validation_mode : Bool
  deriving DecidableEq, Repr

/-- The identity report, `SchemaIdentityInfo` (`report.py`); the
process-start datetime field is irrelevant to every property here and is
omitted. -/
structure SchemaIdentityInfo where
  fullname : String
  hash : String
  hash_settings : SchemaIdentityInfoHashSettings
  deriving DecidableEq, Repr

/-- The two registry stores (`main.py` lines 277-287). -/
structure RegState where
  schema_hash_registry : Nat → Option String
  schema_identity_report_registry : Nat → Option SchemaIdentityInfo

/-- The cached getter `model_schema_hash_get` (`main.py` lines 116-125):
`registry.get(cls) or registry.setdefault(cls, create_new())`.
Python evaluates the `setdefault` argument eagerly, so whenever the `or`
falls through — the entry is absent, or present but falsy (the empty
string) — `create_new` runs; `setdefault` then returns the already-present
value if there is one, else inserts the new one. -/
def model_schema_hash_get (create_new : Nat → Except HashError String)
    (cls : Nat) (st : RegState) :
    Except HashError String × RegState × Nat :=
  match st.schema_hash_registry cls with
  | some h =>
    if h = "" then
      match create_new cls with
      | .error e => (.error e, st, 1)
      | .ok _ => (.ok h, st, 1)
    else
      (.ok h, st, 0)
  | none =>
    match create_new cls with
    | .error e => (.error e, st, 1)
    | .ok h =>
      (.ok h,
       { st with schema_hash_registry :=
           fun c => if c = cls then some h else st.schema_hash_registry c },
       1)

/-- Eviction of one class from both stores, the first two lines of
`model_schema_hash_rebuild` (`main.py` lines 193-194). -/
def evictBoth (cls : Nat) (st : RegState) : RegState :=
  { schema_hash_registry :=
      fun c => if c = cls then none else st.schema_hash_registry c,
    schema_identity_report_registry :=
      fun c => if c = cls then none else st.schema_identity_report_registry c }

/-- The rebuild operation `model_schema_hash_rebuild`
(`main.py` lines 187-195): pop the class from both registries, then run the
cached getter. -/
def model_schema_hash_rebuild (create_new : Nat → Except HashError String)
    (cls : Nat) (st : RegState) :
    Except HashError String × RegState × Nat :=
  model_schema_hash_get create_new cls (evictBoth cls st)

/-- The derived model `BaseModelWithSchemaHash` (`main.py` lines 293-302):
its `model_post_init` assigns the class hash to the `schema_hash` field when
the field holds a falsy (empty) string, and otherwise leaves it alone.
The result is the final field value (or the propagated error). -/
def baseModelWithSchemaHash_model_post_init
    (create_new : Nat → Except HashError String) (cls : Nat) (st : RegState)
    (schema_hash : String) :
    Except HashError String × RegState × Nat :=
  if schema_hash = "" then model_schema_hash_get create_new cls st
  else (.ok schema_hash, st, 0)

/-- Construction of a `BaseModelWithSchemaHash` instance: the `schema_hash`
field defaults to `""` when the caller does not supply it, then
`model_post_init` runs. -/
def mkBaseModelWithSchemaHash
    (create_new : Nat → Except HashError String) (cls : Nat) (st : RegState)
    (supplied : Option String) :
    Except HashError String × RegState × Nat :=
  baseModelWithSchemaHash_model_post_init create_new cls st (supplied.getD "")

/-!
## Observers and fixtures used by the statements below
-/

mutual

/-- Whether a document contains, anywhere in its tree, a map entry with key
`description` and a string value. -/
def hasDescStrEntry : Json → Bool
  | .arr xs => hasDescStrEntryList xs
  | .obj kvs => hasDescStrEntryEntries kvs
  | _ => false

/-- List version of `hasDescStrEntry`. -/
def hasDescStrEntryList : List Json → Bool
  | [] => false
  | x :: xs => hasDescStrEntry x || hasDescStrEntryList xs

/-- Entry-list version of `hasDescStrEntry`. -/
def hasDescStrEntryEntries : List (String × Json) → Bool
  | [] => false
  | (k, v) :: rest =>
      (decide (k = "description") && v.isStr) || hasDescStrEntry v
        || hasDescStrEntryEntries rest

end

mutual

/-- Whether a document contains a map entry with key `description` and a
string value at a position reachable without descending into any list —
exactly the positions the canonicalizer's plain recursion visits. -/
def hasDescStrEntryOutsideLists : Json → Bool
  | .obj kvs => hasDescStrEntryOutsideListsEntries kvs
  | _ => false

/-- Entry-list version of `hasDescStrEntryOutsideLists`. -/
def hasDescStrEntryOutsideListsEntries : List (String × Json) → Bool
  | [] => false
  | (k, v) :: rest =>
      (decide (k = "description") && v.isStr) || hasDescStrEntryOutsideLists v
        || hasDescStrEntryOutsideListsEntries rest

end

/-- Rendering of the nested element pass exactly as the claim describes the
list-sorting branch: each element recursively normalized with
`del_descriptions` propagated and `sort_required` not reapplied, before
string coercion.  (The code instead propagates `sort_required` and disables
`del_descriptions`; the two renderings are compared below.) -/
def elemPassClaimed (del_descriptions sort_lists : Bool) (l : List Json) :
    List String :=
  l.map (fun y => pyStr (_preprocess_schemas false del_descriptions sort_lists y))

/-- Registry state with both stores empty (process start). -/
def emptyRegState : RegState := ⟨fun _ => none, fun _ => none⟩

/-- A `create_new` whose pluggable hash function returns the empty string:
the truncated hash is then the empty string, run through the real
hash-creation pipeline. -/
def createNewEmptyHash : Nat → Except HashError String :=
  fun _ => model_schema_hash_create_new (fun _ => "") (some 12) (.ok [])

/-- A `create_new` that fails (e.g. the tracked extra data stopped being
JSON-serializable after a runtime mutation of the class). -/
def createNewFailing : Nat → Except HashError String :=
  fun _ => .error (.serializationFailed "orjson TypeError")

/-- A `create_new` computing a distinct hash per type identity. -/
def createNewPerType : Nat → Except HashError String :=
  fun cls => .ok (toString cls)

/-- A concrete cached identity report. -/
def sampleReport : SchemaIdentityInfo :=
  ⟨"models.M", "0123456789ab", ⟨false, false, false, 2, true⟩⟩

/-- Registry state in which type `0` has cached entries in both stores. -/
def regWithEntry : RegState :=
  ⟨fun c => if c = 0 then some "0123456789ab" else none,
   fun c => if c = 0 then some sampleReport else none⟩

/-- Configuration with a schema-mode override set while validation-mode
tracking is disabled. -/
def overrideNoValCfg : ModelClassConfig :=
  { json_schema_mode_override := some .serialization,
    model_schema_hash_track_validation_mode := false }

/-!
## Decidability of document equality
-/

mutual

theorem Json.beq_iff : ∀ a b : Json, Json.beq a b = true ↔ a = b
  | .str a, .str b => by simp [Json.beq]
  | .num a, .num b => by simp [Json.beq]
  | .bool a, .bool b => by simp [Json.beq]
  | .null, .null => by simp [Json.beq]
  | .arr a, .arr b => by simp [Json.beq, Json.beqList_iff a b]
  | .obj a, .obj b => by simp [Json.beq, Json.beqEntries_iff a b]
  | .str _, .num _ => by simp [Json.beq]
  | .str _, .bool _ => by simp [Json.beq]
  | .str _, .null => by simp [Json.beq]
  | .str _, .arr _ => by simp [Json.beq]
  | .str _, .obj _ => by simp [Json.beq]
  | .num _, .str _ => by simp [Json.beq]
  | .num _, .bool _ => by simp [Json.beq]
  | .num _, .null => by simp [Json.beq]
  | .num _, .arr _ => by simp [Json.beq]
  | .num _, .obj _ => by simp [Json.beq]
  | .bool _, .str _ => by simp [Json.beq]
  | .bool _, .num _ => by simp [Json.beq]
  | .bool _, .null => by simp [Json.beq]
  | .bool _, .arr _ => by simp [Json.beq]
  | .bool _, .obj _ => by simp [Json.beq]
  | .null, .str _ => by simp [Json.beq]
  | .null, .num _ => by simp [Json.beq]
  | .null, .bool _ => by simp [Json.beq]
  | .null, .arr _ => by simp [Json.beq]
  | .null, .obj _ => by simp [Json.beq]
  | .arr _, .str _ => by simp [Json.beq]
  | .arr _, .num _ => by simp [Json.beq]
  | .arr _, .bool _ => by simp [Json.beq]
  | .arr _, .null => by simp [Json.beq]
  | .arr _, .obj _ => by simp [Json.beq]
  | .obj _, .str _ => by simp [Json.beq]
  | .obj _, .num _ => by simp [Json.beq]
  | .obj _, .bool _ => by simp [Json.beq]
  | .obj _, .null => by simp [Json.beq]
  | .obj _, .arr _ => by simp [Json.beq]

theorem Json.beqList_iff : ∀ a b : List Json, Json.beqList a b = true ↔ a = b
  | [], [] => by simp [Json.beqList]
  | x :: xs, [] => by simp [Json.beqList]
  | [], y :: ys => by simp [Json.beqList]
  | x :: xs, y :: ys => by
      simp [Json.beqList, Json.beq_iff x y, Json.beqList_iff xs ys]

theorem Json.beqEntries_iff : ∀ a b : List (String × Json), Json.beqEntries a b = true ↔ a = b
  | [], [] => by simp [Json.beqEntries]
  | x :: xs, [] => by cases x; simp [Json.beqEntries]
  | [], y :: ys => by cases y; simp [Json.beqEntries]
  | (k, v) :: xs, (l, w) :: ys => by
      simp [Json.beqEntries, Json.beq_iff v w, Json.beqEntries_iff xs ys, and_assoc]

end

instance : DecidableEq Json := fun a b => decidable_of_iff _ (Json.beq_iff a b)

instance : DecidableEq (Except HashError String) := fun a b =>
  match a, b with
  | .ok x, .ok y => decidable_of_iff (x = y) (by simp)
  | .error x, .error y => decidable_of_iff (x = y) (by simp)
  | .ok _, .error _ => isFalse (by simp)
  | .error _, .ok _ => isFalse (by simp)

/-!
## Helper lemmas about the cached getter
-/

/-- After a successful cached-getter call, the registry holds exactly the
returned hash for the class. -/
theorem model_schema_hash_get_ok_cached
    (create_new : Nat → Except HashError String) (cls : Nat) (st : RegState)
    (h : String) (st2 : RegState) (n : Nat)
    (hok : model_schema_hash_get create_new cls st = (.ok h, st2, n)) :
    st2.schema_hash_registry cls = some h := by
  unfold model_schema_hash_get at hok
  cases hcase : st.schema_hash_registry cls with
  | some h0 =>
    rw [hcase] at hok
    by_cases hh : h0 = ""
    · cases hcn : create_new cls with
      | error e => rw [hcn] at hok; simp [hh] at hok
      | ok hnew =>
          rw [hcn] at hok; simp [hh] at hok
          obtain ⟨h1, h2, -⟩ := hok
          rw [← h2, hcase, hh, h1]
    · simp [hh] at hok
      obtain ⟨h1, h2, -⟩ := hok
      rw [← h2, hcase, h1]
  | none =>
    rw [hcase] at hok
    cases hcn : create_new cls with
    | error e => rw [hcn] at hok; simp at hok
    | ok hnew =>
        rw [hcn] at hok; simp at hok
        obtain ⟨h1, h2, -⟩ := hok
        rw [← h2]
        simp [h1]

/-- The cached getter leaves every other class's hash entry, and the whole
report registry, untouched. -/
theorem model_schema_hash_get_frame
    (create_new : Nat → Except HashError String) (cls : Nat) (st : RegState) :
    (∀ c, c ≠ cls →
      ((model_schema_hash_get create_new cls st).2.1).schema_hash_registry c
        = st.schema_hash_registry c) ∧
    ((model_schema_hash_get create_new cls st).2.1).schema_identity_report_registry
      = st.schema_identity_report_registry := by
  unfold model_schema_hash_get
  cases hcase : st.schema_hash_registry cls with
  | some h0 =>
    by_cases hh : h0 = ""
    · cases hcn : create_new cls <;> simp [hh]
    · simp [hh]
  | none =>
    cases hcn : create_new cls with
    | error e => simp
    | ok hnew => simp_all

/-- On failure the cached getter leaves the registry state exactly as it
was. -/
theorem model_schema_hash_get_error_state
    (create_new : Nat → Except HashError String) (cls : Nat) (st : RegState)
    (e : HashError)
    (herr : (model_schema_hash_get create_new cls st).1 = .error e) :
    (model_schema_hash_get create_new cls st).2.1 = st := by
  unfold model_schema_hash_get at herr ⊢
  cases hcase : st.schema_hash_registry cls with
  | some h0 =>
    by_cases hh : h0 = ""
    · cases hcn : create_new cls <;> simp [hcase, hh, hcn] at herr ⊢
    · simp [hcase, hh] at herr
  | none =>
    cases hcn : create_new cls <;> simp [hcase, hcn] at herr ⊢

/-- A cache miss runs `create_new` and, on success, returns and stores its
value. -/
theorem model_schema_hash_get_miss
    (create_new : Nat → Except HashError String) (cls : Nat) (st : RegState)
    (hv : String)
    (hmiss : st.schema_hash_registry cls = none)
    (hok : create_new cls = .ok hv) :
    model_schema_hash_get create_new cls st =
      (.ok hv,
       { st with schema_hash_registry :=
           fun c => if c = cls then some hv else st.schema_hash_registry c },
       1) := by
  unfold model_schema_hash_get
  rw [hmiss, hok]

/-!
## C1: identity-keyed caching
-/

/-- C1: for every pair of distinct type identities — in particular a subtype
whose supertype's hash is computed first — the cached getter computes, stores
and returns the subtype's own `create_new` result under the subtype's own
key, leaving every other key (the supertype's included) untouched: cache
entries are keyed strictly by type identity, never shared with or inherited
from another type. -/
theorem get_or_create_identity_keyed
    (create_new : Nat → Except HashError String) (st : RegState)
    (sup sub : Nat) (hv : String)
    (hne : sub ≠ sup)
    (hmiss : st.schema_hash_registry sub = none)
    (hsub : create_new sub = .ok hv) :
    ∃ st2 : RegState,
      model_schema_hash_get create_new sub
          ((model_schema_hash_get create_new sup st).2.1) = (.ok hv, st2, 1) ∧
      st2.schema_hash_registry sub = some hv ∧
      ∀ c, c ≠ sub → st2.schema_hash_registry c =
        ((model_schema_hash_get create_new sup st).2.1).schema_hash_registry c := by
  have hmiss1 : ((model_schema_hash_get create_new sup st).2.1).schema_hash_registry sub
      = none := by
    rw [(model_schema_hash_get_frame create_new sup st).1 sub hne, hmiss]
  refine ⟨_, model_schema_hash_get_miss create_new sub _ hv hmiss1 hsub, by simp, ?_⟩
  intro c hc
  simp [hc]

/-- Witness for C1 at a concrete input: two distinct identities `0` and `1`,
the hash of `0` computed first on empty registries. -/
theorem get_or_create_identity_keyed_witness :
    ∃ st2 : RegState,
      model_schema_hash_get createNewPerType 1
          ((model_schema_hash_get createNewPerType 0 emptyRegState).2.1)
        = (.ok "1", st2, 1) ∧
      st2.schema_hash_registry 1 = some "1" ∧
      ∀ c, c ≠ 1 → st2.schema_hash_registry c =
        ((model_schema_hash_get createNewPerType 0 emptyRegState).2.1).schema_hash_registry c :=
  get_or_create_identity_keyed createNewPerType emptyRegState 0 1 "1"
    (by decide) rfl rfl

/-!
## C8: rebuild evicts exactly one type
-/

/-- C8: `model_schema_hash_rebuild` removes exactly the rebuilt class's
entries from both stores — every other class's entries in both stores are
unchanged — and then returns the result of a fresh cached-getter call on the
evicted state: on success that call runs `create_new` exactly once, returns
its value and stores it under the class, the class's report entry staying
evicted. -/
theorem rebuild_evicts_exactly_one_type
    (create_new : Nat → Except HashError String) (cls : Nat) (st : RegState) :
    (∀ c, c ≠ cls →
      ((model_schema_hash_rebuild create_new cls st).2.1).schema_hash_registry c
          = st.schema_hash_registry c ∧
      ((model_schema_hash_rebuild create_new cls st).2.1).schema_identity_report_registry c
          = st.schema_identity_report_registry c) ∧
    model_schema_hash_rebuild create_new cls st
      = model_schema_hash_get create_new cls (evictBoth cls st) ∧
    (∀ hv, create_new cls = .ok hv →
      (model_schema_hash_rebuild create_new cls st).1 = .ok hv ∧
      ((model_schema_hash_rebuild create_new cls st).2.1).schema_hash_registry cls
          = some hv ∧
      ((model_schema_hash_rebuild create_new cls st).2.1).schema_identity_report_registry cls
          = none ∧
      (model_schema_hash_rebuild create_new cls st).2.2 = 1) := by
  have hget := model_schema_hash_get_frame create_new cls (evictBoth cls st)
  refine ⟨?_, rfl, ?_⟩
  · intro c hc
    constructor
    · rw [show model_schema_hash_rebuild create_new cls st
            = model_schema_hash_get create_new cls (evictBoth cls st) from rfl,
          hget.1 c hc]
      simp [evictBoth, hc]
    · rw [show model_schema_hash_rebuild create_new cls st
            = model_schema_hash_get create_new cls (evictBoth cls st) from rfl,
          hget.2]
      simp [evictBoth, hc]
  · intro hv hok
    have hmiss : (evictBoth cls st).schema_hash_registry cls = none := by
      simp [evictBoth]
    have hrun := model_schema_hash_get_miss create_new cls (evictBoth cls st) hv hmiss hok
    rw [show model_schema_hash_rebuild create_new cls st
          = model_schema_hash_get create_new cls (evictBoth cls st) from rfl, hrun]
    refine ⟨rfl, by simp, by simp [evictBoth], rfl⟩

/-- Witness for C8 at a concrete input: rebuilding type `0`, which has cached
entries in both stores, in the presence of another type. -/
theorem rebuild_evicts_exactly_one_type_witness :
    ((model_schema_hash_rebuild createNewPerType 0 regWithEntry).2.1).schema_hash_registry 1
        = regWithEntry.schema_hash_registry 1 ∧
    (model_schema_hash_rebuild createNewPerType 0 regWithEntry).1 = .ok "0" ∧
    ((model_schema_hash_rebuild createNewPerType 0 regWithEntry).2.1).schema_identity_report_registry 0
        = none :=
  ⟨((rebuild_evicts_exactly_one_type createNewPerType 0 regWithEntry).1 1 (by decide)).1,
   ((rebuild_evicts_exactly_one_type createNewPerType 0 regWithEntry).2.2 "0" rfl).1,
   ((rebuild_evicts_exactly_one_type createNewPerType 0 regWithEntry).2.2 "0" rfl).2.2.1⟩

/-!
## C6: registry state when an operation raises
-/

/-- C6 counterexample: with type `0` cached in both stores and `create_new`
failing, `model_schema_hash_rebuild` raises — yet the stores are not left as
they were before the call: the previously cached entries of the rebuilt type
are gone. -/
theorem rebuild_failure_loses_entries_counterexample :
    (model_schema_hash_rebuild createNewFailing 0 regWithEntry).1
        = .error (.serializationFailed "orjson TypeError") ∧
    regWithEntry.schema_hash_registry 0 = some "0123456789ab" ∧
    ((model_schema_hash_rebuild createNewFailing 0 regWithEntry).2.1).schema_hash_registry 0
        = none ∧
    regWithEntry.schema_identity_report_registry 0 = some sampleReport ∧
    ((model_schema_hash_rebuild createNewFailing 0 regWithEntry).2.1).schema_identity_report_registry 0
        = none :=
  ⟨rfl, rfl, rfl, rfl, rfl⟩

/-- C6 (amended): when `model_schema_hash_get` raises, both registry stores
are left exactly as before the call; when `model_schema_hash_rebuild` raises,
no incomplete entry is added and every other type's entries in both stores are
unchanged, but the rebuilt type's own previously cached entries have been
evicted (they are gone from both stores). -/
theorem registry_error_frame
    (create_new : Nat → Except HashError String) (cls : Nat) (st : RegState) :
    (∀ e, (model_schema_hash_get create_new cls st).1 = .error e →
        (model_schema_hash_get create_new cls st).2.1 = st) ∧
    (∀ e, (model_schema_hash_rebuild create_new cls st).1 = .error e →
        ((model_schema_hash_rebuild create_new cls st).2.1).schema_hash_registry cls
            = none ∧
        ((model_schema_hash_rebuild create_new cls st).2.1).schema_identity_report_registry cls
            = none ∧
        ∀ c, c ≠ cls →
          ((model_schema_hash_rebuild create_new cls st).2.1).schema_hash_registry c
              = st.schema_hash_registry c ∧
          ((model_schema_hash_rebuild create_new cls st).2.1).schema_identity_report_registry c
              = st.schema_identity_report_registry c) := by
  constructor
  · intro e herr
    exact model_schema_hash_get_error_state create_new cls st e herr
  · intro e herr
    have hst : (model_schema_hash_rebuild create_new cls st).2.1 = evictBoth cls st :=
      model_schema_hash_get_error_state create_new cls (evictBoth cls st) e herr
    rw [hst]
    refine ⟨by simp [evictBoth], by simp [evictBoth], ?_⟩
    intro c hc
    exact ⟨by simp [evictBoth, hc], by simp [evictBoth, hc]⟩

/-- Witness for C6 (amended) at a concrete input: a failing `create_new` on
an empty registry for the getter, and on a populated registry for rebuild. -/
theorem registry_error_frame_witness :
    (model_schema_hash_get createNewFailing 0 emptyRegState).2.1 = emptyRegState ∧
    ((model_schema_hash_rebuild createNewFailing 0 regWithEntry).2.1).schema_hash_registry 1
        = regWithEntry.schema_hash_registry 1 :=
  ⟨(registry_error_frame createNewFailing 0 emptyRegState).1
      (.serializationFailed "orjson TypeError") rfl,
   (((registry_error_frame createNewFailing 0 regWithEntry).2
      (.serializationFailed "orjson TypeError") rfl).2.2 1 (by decide)).1⟩

/-!
## C9: idempotence and (re)computation
-/

/-- C9 counterexample: a pluggable hash function returning the empty string
(run through the real `model_schema_hash_create_new` pipeline) makes the
first call cache `""`; the value is cached, yet the next call still runs
`create_new` again (invocation count `1`), because the cached empty string is
falsy in `registry.get(cls) or registry.setdefault(cls, create_new())` and
Python evaluates the `setdefault` argument eagerly. -/
theorem get_recomputes_cached_empty_counterexample :
    ((model_schema_hash_get createNewEmptyHash 0 emptyRegState).2.1).schema_hash_registry 0
        = some "" ∧
    (model_schema_hash_get createNewEmptyHash 0
        ((model_schema_hash_get createNewEmptyHash 0 emptyRegState).2.1)).1 = .ok "" ∧
    (model_schema_hash_get createNewEmptyHash 0
        ((model_schema_hash_get createNewEmptyHash 0 emptyRegState).2.1)).2.2 = 1 :=
  ⟨rfl, rfl, rfl⟩

/-- C9 (amended): under unchanged configuration (the same `create_new`
function), a repeated call after a successful one returns the same string and
the same registry state; once a non-empty value is cached no recomputation
happens (invocation count `0`); a cached empty string — only possible when
the pluggable hash function returns the empty string — is recomputed on every
call (count `1`) though the returned value is still the identical cached
string. -/
theorem get_or_create_idempotent
    (create_new : Nat → Except HashError String) (cls : Nat) (st : RegState)
    (h : String) (st2 : RegState) (n : Nat)
    (h1 : model_schema_hash_get create_new cls st = (.ok h, st2, n)) :
    model_schema_hash_get create_new cls st2
      = (.ok h, st2, if h = "" then 1 else 0) := by
  have hcached : st2.schema_hash_registry cls = some h :=
    model_schema_hash_get_ok_cached create_new cls st h st2 n h1
  by_cases hh : h = ""
  · have hcn : ∃ hv, create_new cls = .ok hv := by
      unfold model_schema_hash_get at h1
      cases hcase : st.schema_hash_registry cls with
      | some h0 =>
        rw [hcase] at h1
        by_cases h0e : h0 = ""
        · cases hcn2 : create_new cls with
          | error e => rw [hcn2] at h1; simp [h0e] at h1
          | ok hnew => exact ⟨hnew, rfl⟩
        · simp [h0e] at h1
          exact absurd (h1.1 ▸ hh) h0e
      | none =>
        rw [hcase] at h1
        cases hcn2 : create_new cls with
        | error e => rw [hcn2] at h1; simp at h1
        | ok hnew => exact ⟨hnew, rfl⟩
    obtain ⟨hv, hcn⟩ := hcn
    unfold model_schema_hash_get
    rw [hcached, hcn]
    simp [hh]
  · unfold model_schema_hash_get
    rw [hcached]
    simp [hh]

/-- Witness for C9 (amended) at a concrete input: a first call on empty
registries, then the repeated call. -/
theorem get_or_create_idempotent_witness :
    model_schema_hash_get createNewPerType 0
        ((model_schema_hash_get createNewPerType 0 emptyRegState).2.1)
      = (.ok "0", (model_schema_hash_get createNewPerType 0 emptyRegState).2.1,
         if "0" = "" then 1 else 0) :=
  get_or_create_idempotent createNewPerType 0 emptyRegState "0"
    ((model_schema_hash_get createNewPerType 0 emptyRegState).2.1) 1 rfl

/-!
## C5: the configuration-conflict check
-/

/-- C5 counterexample: `overrideNoValCfg` sets a schema-mode override while
validation-mode tracking is disabled; per the claim this combination must not
fail, yet the input-data assembly raises the configuration-conflict error
(and makes no provider call). -/
theorem config_conflict_without_validation_tracking_counterexample :
    overrideNoValCfg.model_schema_hash_track_validation_mode = false ∧
    overrideNoValCfg.json_schema_mode_override = some .serialization ∧
    model_schema_hash_get_input_data overrideNoValCfg "models.M"
        (fun _ _ => .null) (fun _ _ => .ok [])
      = ([], .error .configConflict) :=
  ⟨rfl, rfl, rfl⟩

/-- Wrapping a serializer result never produces the configuration-conflict
error. -/
theorem dumps_wrap_ne_configConflict {alpha : Type} (calls : List alpha)
    (r : Except String (List Nat)) :
    (match r with
     | .error msg => (calls, Except.error (HashError.serializationFailed msg))
     | .ok bs => (calls, Except.ok bs)).2 ≠ .error .configConflict := by
  cases r <;> simp

/-- C5 (amended): the input-data assembly fails with the
configuration-conflict error exactly when the schema-mode override is set in
the model config — independently of the validation-mode tracking flag.  When
it fails this way no schema-provider call has been made (the call list is
empty), and whenever hash creation fails the cached getter stores nothing:
the registry state it returns is the unchanged input state. -/
theorem config_conflict_exactly_on_override
    (cfg : ModelClassConfig) (name : String)
    (provider : SchemaMode → Bool → Json)
    (dumps : Json → Bool → Except String (List Nat)) :
    (cfg.json_schema_mode_override.isSome →
        model_schema_hash_get_input_data cfg name provider dumps
          = ([], .error .configConflict)) ∧
    (cfg.json_schema_mode_override = none →
        (model_schema_hash_get_input_data cfg name provider dumps).2
          ≠ .error .configConflict) ∧
    (∀ create_new cls st e,
        (model_schema_hash_get create_new cls st).1 = .error e →
        (model_schema_hash_get create_new cls st).2.1 = st) := by
  refine ⟨?_, ?_, ?_⟩
  · intro hover
    obtain ⟨m, hm⟩ := Option.isSome_iff_exists.mp hover
    unfold model_schema_hash_get_input_data _validate_no_json_schema_mode_override
    rw [hm]
  · intro hnone
    unfold model_schema_hash_get_input_data _validate_no_json_schema_mode_override
    rw [hnone]
    split
    · simp_all
    · exact fun hcontra => dumps_wrap_ne_configConflict _ _ hcontra
  · intro create_new cls st e herr
    exact model_schema_hash_get_error_state create_new cls st e herr

/-- Witness for C5 (amended) at concrete inputs: the conflicting
configuration fails before any provider call, the default configuration
cannot produce the conflict error, and a failing creation stores nothing. -/
theorem config_conflict_exactly_on_override_witness :
    model_schema_hash_get_input_data overrideNoValCfg "models.M"
        (fun _ _ => .null) (fun _ _ => .ok []) = ([], .error .configConflict) ∧
    (model_schema_hash_get_input_data {} "models.M"
        (fun _ _ => .null) (fun _ _ => .ok [])).2 ≠ .error .configConflict ∧
    (model_schema_hash_get createNewFailing 0 emptyRegState).2.1 = emptyRegState :=
  ⟨(config_conflict_exactly_on_override overrideNoValCfg "models.M"
      (fun _ _ => .null) (fun _ _ => .ok [])).1 rfl,
   (config_conflict_exactly_on_override {} "models.M"
      (fun _ _ => .null) (fun _ _ => .ok [])).2.1 rfl,
   (config_conflict_exactly_on_override {} "models.M"
      (fun _ _ => .null) (fun _ _ => .ok [])).2.2 createNewFailing 0 emptyRegState
      (.serializationFailed "orjson TypeError") rfl⟩

/-!
## C10: the `schema_hash` instance field
-/

/-- C10: constructing a `BaseModelWithSchemaHash` with the `schema_hash`
field unset, or supplied as the empty string, makes `model_post_init` assign
the class's cached schema hash — the construction behaves exactly as the
cached getter, whose result is the cached hash; a non-empty supplied value is
preserved unchanged, with no registry access and no `create_new` run. -/
theorem schema_hash_field_post_init
    (create_new : Nat → Except HashError String) (cls : Nat) (st : RegState)
    (s : String) (hs : s ≠ "") :
    mkBaseModelWithSchemaHash create_new cls st none
        = model_schema_hash_get create_new cls st ∧
    mkBaseModelWithSchemaHash create_new cls st (some "")
        = model_schema_hash_get create_new cls st ∧
    mkBaseModelWithSchemaHash create_new cls st (some s) = (.ok s, st, 0) := by
  refine ⟨rfl, rfl, ?_⟩
  unfold mkBaseModelWithSchemaHash baseModelWithSchemaHash_model_post_init
  simp [hs]

/-- Witness for C10 at concrete inputs: unset and empty-supplied fields take
the cached class hash; a caller-supplied non-empty value survives. -/
theorem schema_hash_field_post_init_witness :
    mkBaseModelWithSchemaHash createNewPerType 0 regWithEntry none
        = model_schema_hash_get createNewPerType 0 regWithEntry ∧
    mkBaseModelWithSchemaHash createNewPerType 0 regWithEntry (some "")
        = model_schema_hash_get createNewPerType 0 regWithEntry ∧
    mkBaseModelWithSchemaHash createNewPerType 0 regWithEntry (some "caller-supplied")
        = (.ok "caller-supplied", regWithEntry, 0) :=
  schema_hash_field_post_init createNewPerType 0 regWithEntry "caller-supplied"
    (by decide)

/-!
## C2: truncation of the digest
-/

/-- C2 counterexample: with the limit configured as `0`, the created hash is
the full digest, not the empty string — `limit or 1000` treats `0` as falsy,
so `0` behaves as if the limit were unset. -/
theorem truncation_limit_zero_counterexample :
    model_schema_hash_create_new (fun _ => "d41d8cd98f00b204e9800998ecf8427e")
        (some 0) (.ok [])
      = .ok "d41d8cd98f00b204e9800998ecf8427e" ∧
    "d41d8cd98f00b204e9800998ecf8427e" ≠ "" := by
  constructor
  · decide
  · decide

/-- C2 (amended): truncation is total and never raises; the limits `None`
and `0` behave identically, keeping exactly the first 1000 characters of
every digest: appending the dropped tail reconstructs the digest and the
output length is the minimum of 1000 and the digest's length — so the full
digest survives exactly when it has at most 1000 characters (the default
32-character digest in particular), while a longer digest from a pluggable
hash function is cut at 1000 even with the limit unset; a positive limit at
least the digest's length keeps the digest in full with no padding; and any
positive limit keeps exactly the leading `min limit length` characters. -/
theorem truncation_behavior (digest : String) (n : Int) :
    model_schema_hash_truncate (some 0) digest
        = model_schema_hash_truncate none digest ∧
    model_schema_hash_truncate none digest
        ++ (⟨digest.data.drop 1000⟩ : String) = digest ∧
    (model_schema_hash_truncate none digest).length = min 1000 digest.length ∧
    (digest.length ≤ 1000 → model_schema_hash_truncate none digest = digest) ∧
    (0 < n → (digest.length : Int) ≤ n →
        model_schema_hash_truncate (some n) digest = digest) ∧
    (0 < n →
        model_schema_hash_truncate (some n) digest
            ++ (⟨digest.data.drop n.toNat⟩ : String) = digest ∧
        (model_schema_hash_truncate (some n) digest).length
            = min n.toNat digest.length) ∧
    (∀ hashFn limit input,
        model_schema_hash_create_new hashFn limit (.ok input)
          = .ok (model_schema_hash_truncate limit (hashFn input))) := by
  have happ : ∀ m : Nat,
      (⟨digest.data.take m⟩ : String) ++ (⟨digest.data.drop m⟩ : String)
        = digest := by
    intro m
    cases digest with
    | mk l =>
        show (⟨l.take m ++ l.drop m⟩ : String) = ⟨l⟩
        rw [List.take_append_drop]
  have hlen : ∀ m : Nat,
      ((⟨digest.data.take m⟩ : String)).length = min m digest.length := by
    intro m
    show (digest.data.take m).length = min m digest.data.length
    rw [List.length_take]
  have hnone : model_schema_hash_truncate none digest
      = (⟨digest.data.take 1000⟩ : String) := by
    simp only [model_schema_hash_truncate, pyOrInt, pySliceTo]
    rw [if_neg (by omega)]
    rfl
  have hsome : 0 < n → model_schema_hash_truncate (some n) digest
      = (⟨digest.data.take n.toNat⟩ : String) := by
    intro hpos
    simp only [model_schema_hash_truncate, pyOrInt, pySliceTo]
    rw [if_neg (by omega), if_neg (by omega)]
  refine ⟨rfl, ?_, ?_, ?_, ?_, ?_, fun _ _ _ => rfl⟩
  · rw [hnone]
    exact happ 1000
  · rw [hnone]
    exact hlen 1000
  · intro hle
    rw [hnone]
    cases digest with
    | mk l =>
        show (⟨l.take 1000⟩ : String) = ⟨l⟩
        rw [List.take_of_length_le (show l.length ≤ 1000 from hle)]
  · intro hpos hle
    rw [hsome hpos]
    cases digest with
    | mk l =>
        have hle2 : (l.length : Int) ≤ n := hle
        show (⟨l.take n.toNat⟩ : String) = ⟨l⟩
        rw [List.take_of_length_le (by omega)]
  · intro hpos
    rw [hsome hpos]
    exact ⟨happ n.toNat, hlen n.toNat⟩

/-- Witness for C2 (amended) at the default hash function's empty-input
digest: unbounded and over-length limits keep all 32 characters; limit 5
keeps exactly the 5 leading characters (prefix plus dropped tail rebuild the
digest, and the output length is the minimum). -/
theorem truncation_behavior_witness :
    model_schema_hash_truncate none "d41d8cd98f00b204e9800998ecf8427e"
        = "d41d8cd98f00b204e9800998ecf8427e" ∧
    model_schema_hash_truncate (some 1000) "d41d8cd98f00b204e9800998ecf8427e"
        = "d41d8cd98f00b204e9800998ecf8427e" ∧
    model_schema_hash_truncate (some 5) "d41d8cd98f00b204e9800998ecf8427e"
        ++ (⟨"d41d8cd98f00b204e9800998ecf8427e".data.drop (5 : Int).toNat⟩ : String)
        = "d41d8cd98f00b204e9800998ecf8427e" ∧
    (model_schema_hash_truncate (some 5) "d41d8cd98f00b204e9800998ecf8427e").length
        = min (5 : Int).toNat "d41d8cd98f00b204e9800998ecf8427e".length :=
  ⟨(truncation_behavior "d41d8cd98f00b204e9800998ecf8427e" 1000).2.2.2.1
      (by decide),
   (truncation_behavior "d41d8cd98f00b204e9800998ecf8427e" 1000).2.2.2.2.1
      (by decide) (by decide),
   ((truncation_behavior "d41d8cd98f00b204e9800998ecf8427e" 5).2.2.2.2.2.1
      (by decide)).1,
   ((truncation_behavior "d41d8cd98f00b204e9800998ecf8427e" 5).2.2.2.2.2.1
      (by decide)).2⟩

/-!
## C3: values under a `default` key
-/

/-- A list value under a `default` key is returned unchanged: the `required`
branch does not apply, the list-sorting branch excludes `default`, and the
trailing recursive call is a no-op on lists. -/
theorem preprocessValue_default_arr (sr dd sl : Bool) (l : List Json) :
    preprocessValue sr dd sl "default" (.arr l) = .arr l := by
  cases l with
  | nil => simp [preprocessValue, _preprocess_schemas]
  | cons x xs => simp [preprocessValue]

/-- C3 counterexample: with `del_descriptions` enabled the canonicalizer does
alter a map value stored under a `default` key — the trailing recursion
enters the map and strips its `description` entry; only the list-sorting
branch exempts `default`. -/
theorem default_map_value_altered_counterexample :
    _preprocess_schemas true true true
        (.obj [("default", .obj [("description", .str "d")])])
      = .obj [("default", .obj [])] ∧
    Json.obj [("description", .str "d")] ≠ Json.obj [] := by
  refine ⟨?_, by decide⟩
  simp [_preprocess_schemas, preprocessEntries, preprocessValue, Json.isStr]

/-- C3 (amended): at every map node — hence at every nesting depth — an entry
holding a list value under the key `default` passes through the canonicalizer
completely unchanged under every policy: it is never dropped, and its value
(nested lists and maps inside included, since plain recursion never enters a
list) is never sorted, stringified or otherwise altered.  A map value under
`default` is, however, still entered by the ordinary recursion (see the
counterexample): only the list-sorting branch exempts `default`. -/
theorem default_list_entry_passes_through (sr dd sl : Bool) (l : List Json)
    (pre post : List (String × Json)) :
    preprocessValue sr dd sl "default" (.arr l) = .arr l ∧
    preprocessEntries sr dd sl (pre ++ ("default", .arr l) :: post)
      = preprocessEntries sr dd sl pre
          ++ ("default", .arr l) :: preprocessEntries sr dd sl post := by
  refine ⟨preprocessValue_default_arr sr dd sl l, ?_⟩
  induction pre with
  | nil => simp [preprocessEntries, preprocessValue_default_arr]
  | cons e rest ih =>
    obtain ⟨k0, v0⟩ := e
    by_cases hc : dd = true ∧ k0 = "description" ∧ v0.isStr = true
    · obtain ⟨hdd, hk, hv⟩ := hc
      subst hdd
      simp [preprocessEntries, hk, hv, ih]
    · simp [preprocessEntries, hc, ih]

/-!
## C4: elimination of `description` entries
-/

/-- The per-value step never turns a non-string value into a string: both
list branches produce lists, and the trailing recursion preserves the node
kind. -/
theorem preprocessValue_not_str (sr dd sl : Bool) (k : String) (v : Json)
    (hv : v.isStr = false) : (preprocessValue sr dd sl k v).isStr = false := by
  cases v with
  | str s => simp [Json.isStr] at hv
  | num n => simp [preprocessValue, _preprocess_schemas, Json.isStr]
  | bool b => simp [preprocessValue, _preprocess_schemas, Json.isStr]
  | null => simp [preprocessValue, _preprocess_schemas, Json.isStr]
  | arr xs =>
    cases xs with
    | nil => simp [preprocessValue, _preprocess_schemas, Json.isStr]
    | cons x rest =>
      simp only [preprocessValue]
      split_ifs <;> simp [Json.isStr]
  | obj kvs => simp [preprocessValue, _preprocess_schemas, Json.isStr]

mutual

/-- With `del_descriptions` enabled, the canonicalized output has no
description-string entry at any position the plain recursion can reach. -/
theorem descFree_preprocess (sr sl : Bool) :
    ∀ j : Json,
      hasDescStrEntryOutsideLists (_preprocess_schemas sr true sl j) = false
  | .str s => by simp [_preprocess_schemas, hasDescStrEntryOutsideLists]
  | .num n => by simp [_preprocess_schemas, hasDescStrEntryOutsideLists]
  | .bool b => by simp [_preprocess_schemas, hasDescStrEntryOutsideLists]
  | .null => by simp [_preprocess_schemas, hasDescStrEntryOutsideLists]
  | .arr xs => by simp [_preprocess_schemas, hasDescStrEntryOutsideLists]
  | .obj kvs => by
      simp only [_preprocess_schemas, hasDescStrEntryOutsideLists]
      exact descFree_entries sr sl kvs

/-- Entry-list version of `descFree_preprocess`. -/
theorem descFree_entries (sr sl : Bool) :
    ∀ kvs : List (String × Json),
      hasDescStrEntryOutsideListsEntries (preprocessEntries sr true sl kvs)
        = false
  | [] => by simp [preprocessEntries, hasDescStrEntryOutsideListsEntries]
  | (k, v) :: rest => by
      simp only [preprocessEntries]
      split
      · exact descFree_entries sr sl rest
      · rename_i hkeep
        simp only [hasDescStrEntryOutsideListsEntries]
        rw [descFree_entries sr sl rest, descFree_value sr sl k v]
        simp only [Bool.or_false]
        by_cases hk : k = "description"
        · have hv : v.isStr = false := by
            rcases Bool.eq_false_or_eq_true v.isStr with h | h
            · exact absurd (by exact ⟨by trivial, hk, h⟩) hkeep
            · exact h
          simp [hk, preprocessValue_not_str sr true sl "description" v hv]
        · simp [hk]
termination_by kvs => (sizeOf kvs, 0)

/-- Per-value version of `descFree_preprocess`. -/
theorem descFree_value (sr sl : Bool) :
    ∀ (k : String) (v : Json),
      hasDescStrEntryOutsideLists (preprocessValue sr true sl k v) = false
  | k, .str s => by
      simp [preprocessValue, _preprocess_schemas, hasDescStrEntryOutsideLists]
  | k, .num n => by
      simp [preprocessValue, _preprocess_schemas, hasDescStrEntryOutsideLists]
  | k, .bool b => by
      simp [preprocessValue, _preprocess_schemas, hasDescStrEntryOutsideLists]
  | k, .null => by
      simp [preprocessValue, _preprocess_schemas, hasDescStrEntryOutsideLists]
  | k, .arr xs => by
      cases xs with
      | nil =>
          simp [preprocessValue, _preprocess_schemas,
            hasDescStrEntryOutsideLists]
      | cons x rest =>
          simp only [preprocessValue]
          split_ifs <;> simp [hasDescStrEntryOutsideLists]
  | _k, .obj kvs => by
      simp only [preprocessValue, _preprocess_schemas,
        hasDescStrEntryOutsideLists]
      exact descFree_entries sr sl kvs
termination_by _ v => (sizeOf v, 1)

end

/-- C4 counterexample: with `del_descriptions` enabled but `sort_lists`
disabled, a `description` entry inside a map that is an element of a list
survives canonicalization unchanged — the plain recursion never enters a
list, so the output still contains a map entry with key `description` and a
string value. -/
theorem description_survives_inside_list_counterexample :
    _preprocess_schemas false true false
        (.obj [("k", .arr [.obj [("description", .str "d")]])])
      = .obj [("k", .arr [.obj [("description", .str "d")]])] ∧
    hasDescStrEntry
        (_preprocess_schemas false true false
          (.obj [("k", .arr [.obj [("description", .str "d")]])]))
      = true := by
  have heval : _preprocess_schemas false true false
      (.obj [("k", .arr [.obj [("description", .str "d")]])])
      = .obj [("k", .arr [.obj [("description", .str "d")]])] := by
    simp [_preprocess_schemas, preprocessEntries, preprocessValue, Json.isStr]
  refine ⟨heval, ?_⟩
  rw [heval]
  decide

/-- C4 (amended): when `del_descriptions` is enabled, the canonicalized
output contains no map entry with key `description` and a string value at any
position outside list interiors, for every combination of the
`sort_required` and `sort_lists` flags.  Inside lists the guarantee does not
hold (see the counterexample): a list the pass leaves untraversed — any list
when `sort_lists` is disabled, and a `default`-keyed list always — can retain
description entries of maps nested within it. -/
theorem drop_descriptions_outside_lists (sr sl : Bool) (j : Json) :
    hasDescStrEntryOutsideLists (_preprocess_schemas sr true sl j) = false :=
  descFree_preprocess sr sl j

/-!
## C7: the nested element pass of the list-sorting branch
-/

/-- The nested element pass is the element-wise map of normalization with
`sort_required` propagated and `del_descriptions` disabled, followed by
string coercion. -/
theorem elemPass_eq_map (sr sl : Bool) (l : List Json) :
    elemPass sr sl l
      = l.map (fun y => pyStr (_preprocess_schemas sr false sl y)) := by
  induction l with
  | nil => simp [elemPass]
  | cons y ys ih => simp [elemPass, ih]

/-- C7 counterexample: on a list element carrying a `description`, the code's
list-sorting branch (which disables `del_descriptions` in the nested pass)
keeps the description in the stringified element, whereas the branch the
claim describes (propagating `del_descriptions`, here enabled) would have
dropped it first — the two disagree on this input. -/
theorem nested_pass_flags_counterexample :
    preprocessValue false true true "k" (.arr [.obj [("description", .str "d")]])
      = .arr [.str "\x7b\x27description\x27: \x27d\x27\x7d"] ∧
    Json.arr ((sortLe strLe (elemPassClaimed true true
        [.obj [("description", .str "d")]])).map Json.str)
      = .arr [.str "\x7b\x7d"] ∧
    Json.arr [.str "\x7b\x27description\x27: \x27d\x27\x7d"]
      ≠ .arr [.str "\x7b\x7d"] := by
  refine ⟨?_, ?_, by decide⟩
  · simp [preprocessValue, elemPass, _preprocess_schemas, preprocessEntries,
      Json.isStr, sortLe, insertLe, pyStr, pyRepr, pyReprEntries]
  · simp [elemPassClaimed, _preprocess_schemas, preprocessEntries,
      Json.isStr, sortLe, insertLe, pyStr, pyRepr, pyReprEntries]

/-- C7 (amended): in the order-insensitive list branch (`sort_lists` enabled,
key not `default`, non-empty list not taken by the `required` branch), each
list element is first recursively normalized with `sort_required` and
`sort_lists` propagated and with `del_descriptions` disabled in that nested
pass, and only then is the list replaced by the lexicographically sorted list
of its elements coerced to strings. -/
theorem nested_pass_flags
    (sr dd sl : Bool) (k : String) (x : Json) (xs : List Json)
    (hreq : ¬(sr = true ∧ k = "required" ∧ x.isStr = true))
    (hsl : sl = true) (hdef : ¬ k = "default") :
    preprocessValue sr dd sl k (.arr (x :: xs))
      = .arr ((sortLe strLe ((x :: xs).map
          (fun y => pyStr (_preprocess_schemas sr false sl y)))).map
            Json.str) := by
  simp only [preprocessValue]
  rw [if_neg hreq, if_pos ⟨hsl, hdef⟩, elemPass_eq_map]

/-- Witness for C7 (amended) at a concrete input: a two-element integer list
under an `anyOf`-like key is stringified element-wise and sorted. -/
theorem nested_pass_flags_witness :
    preprocessValue false false true "anyOf" (.arr [.num 2, .num 1])
      = .arr [.str "1", .str "2"] := by
  have h := nested_pass_flags false false true "anyOf" (.num 2) [.num 1]
    (by decide) rfl (by decide)
  rw [h]
  simp only [List.map, _preprocess_schemas]
  decide
